import Mathlib

/-!
Verification development for the aurora-ibn intent-based-networking core.

The definitions below are a shallow embedding of the Python sources in
`src/core` (`intent_processor.py`, `yang_mapper.py`, `model_discovery.py`,
`validation_engine.py`).  Network clients, the filesystem cache and the
system clock are external collaborators; they are modelled as explicit
behaviour parameters (`Except`-valued oracles), while all repository logic
is translated function by function.  Machine state (the Active Commit
Registry, a Python dict) is modelled as an association list threaded
explicitly through the operations.
-/

namespace Aurora

/-- Modelled from the spec: `ServiceType` enum of `models.base` (the module
itself is not in the sources; members and their string values are taken from
§3 of the spec and from their uses in `intent_processor.py` and
`yang_mapper.py`). -/
inductive ServiceType where
  | l3vpn
  | l2vpnEpipe
  | evpn
  | bgp
  | isis
  | ospf
  | qos
  | acl
  | srv6
  | segmentRouting
  | telemetry
  deriving DecidableEq, Repr

/-- The `.value` string of each `ServiceType` member, as compared against in
`yang_mapper._get_yang_paths_for_intent` and
`model_discovery._get_required_models`. -/
def ServiceType.value : ServiceType → String
  | .l3vpn => "l3vpn"
  | .l2vpnEpipe => "l2vpn-epipe"
  | .evpn => "evpn"
  | .bgp => "bgp"
  | .isis => "isis"
  | .ospf => "ospf"
  | .qos => "qos"
  | .acl => "acl"
  | .srv6 => "srv6"
  | .segmentRouting => "segment-routing"
  | .telemetry => "telemetry"

/-- Modelled from the spec: `Vendor` enum of `models.base`; the members used
anywhere in the sources are CISCO, NOKIA and JUNIPER, with lowercase string
values (`Vendor("nokia")` succeeds in the tests). -/
inductive Vendor where
  | cisco
  | nokia
  | juniper
  deriving DecidableEq, Repr

/-- `Vendor(vendor_str)`: returns `none` where the Python constructor raises
`ValueError` on a string that is not a member value. -/
def Vendor.ofString : String → Option Vendor
  | "cisco" => some .cisco
  | "nokia" => some .nokia
  | "juniper" => some .juniper
  | _ => none

/-- Modelled from the spec: `Transport` enum of `models.base`. -/
inductive Transport where
  | netconf
  | restconf
  | gnmi
  deriving DecidableEq, Repr

/-- Modelled from the spec: `RiskLevel` enum of `models.base`. -/
inductive RiskLevel where
  | low
  | medium
  | high
  deriving DecidableEq, Repr

/-- Modelled from the spec: `SLO` record (`latencyMs`, `lossPct`, `jitterMs`
all optional numbers).  Python floats of the parser are integral-valued, so
rationals embed every value that can occur. -/
structure SLO where
  latency_ms : Option ℚ
  loss_pct : Option ℚ
  jitter_ms : Option ℚ
  deriving DecidableEq, Repr

/-- Modelled from the spec: `Policy` record (`mtu` default 1500, `bfd`
default false, optional `auth`). -/
structure Policy where
  mtu : ℕ
  bfd : Bool
  auth : Option String
  deriving DecidableEq, Repr

/-- Modelled from the spec: `Endpoint` record. -/
structure Endpoint where
  device : String
  interface : String
  tags : List String
  deriving DecidableEq, Repr

/-- Modelled from the spec: `Routing` record. -/
structure Routing where
  protocols : List String
  address_families : List String
  deriving DecidableEq, Repr

/-- Modelled from the spec: `NormalizedIntent` record. -/
structure NormalizedIntent where
  service_type : ServiceType
  endpoints : List Endpoint
  routing : Option Routing
  slo : Option SLO
  policy : Option Policy
  deriving DecidableEq, Repr

/-- Modelled from the spec: `RiskAssessment` record. -/
structure RiskAssessment where
  level : RiskLevel
  factors : List String
  mitigations : List String
  deriving DecidableEq, Repr

/-- An inventory device record: the dictionary fields the core reads, with
the `.get` defaults of `intent_processor._assess_risks`,
`model_discovery._discover_device_models` and
`config_generator._determine_transport` (`netconf_enabled` defaults to
true, the other transports to false, `vendor` to `""`). -/
structure Device where
  device_id : String
  vendor : String
  netconf_enabled : Bool
  gnmi_enabled : Bool
  restconf_enabled : Bool
  deriving DecidableEq, Repr

/-- The orchestrator-level `policy` dict: the only key read by
`_assess_risks` and `_create_commit_plan` is `maintenance_window`.  Python
truthiness of the stored value is modelled: `some w` with `w ≠ ""` is
truthy. -/
structure OrchPolicy where
  maintenance_window : Option String
  deriving DecidableEq, Repr

/-- Truthiness of `policy.get("maintenance_window")` for an optional policy
dict: false when the dict is absent, the key is absent, or the value is an
empty (falsy) string. -/
def hasMaintWindow : Option OrchPolicy → Bool
  | none => false
  | some p =>
    match p.maintenance_window with
    | none => false
    | some w => w ≠ ""

/-- Truthiness of `intent.slo.latency_ms` followed by the `< 10` check in
`_assess_risks` (line 233): a Python numeric is truthy exactly when it is
nonzero. -/
def aggressiveSlo (slo : Option SLO) : Bool :=
  match slo with
  | none => false
  | some s =>
    match s.latency_ms with
    | none => false
    | some x => x ≠ 0 && x < 10

/-- `IntentProcessor._assess_risks` (`intent_processor.py` lines 206-242),
translated statement by statement.  `len(set(vendors)) > 1` becomes the
length of the deduplicated vendor-string list. -/
def assessRisks (intent : NormalizedIntent) (inventory : List Device)
    (policy : Option OrchPolicy) : RiskAssessment :=
  let factors : List String := []
  let mitigations : List String := []
  let level : RiskLevel := .low
  let (factors, mitigations, level) :=
    if intent.service_type = .l3vpn ∨ intent.service_type = .evpn then
      (factors ++ ["Core routing modification required"],
       mitigations ++ ["Use confirmed-commit with auto-rollback"],
       RiskLevel.medium)
    else (factors, mitigations, level)
  let multiVendor := (inventory.map Device.vendor).dedup.length > 1
  let (factors, mitigations, level) :=
    if multiVendor then
      (factors ++ ["Multi-vendor environment detected"],
       mitigations ++ ["Validate vendor-specific YANG models"],
       RiskLevel.medium)
    else (factors, mitigations, level)
  let (factors, mitigations, level) :=
    if ¬ hasMaintWindow policy then
      (factors ++ ["No maintenance window specified"],
       mitigations ++ ["Schedule during low-traffic period"],
       if level = .low then RiskLevel.medium else level)
    else (factors, mitigations, level)
  let (factors, mitigations, level) :=
    if aggressiveSlo intent.slo then
      (factors ++ ["Aggressive SLO requirements"],
       mitigations ++ ["Enable performance monitoring pre/post change"],
       RiskLevel.high)
    else (factors, mitigations, level)
  { level := level
    factors := if factors.isEmpty then ["Standard configuration change"] else factors
    mitigations := if mitigations.isEmpty then ["Follow standard procedures"] else mitigations }

/-- The commit plan record assembled by `_create_commit_plan`. -/
structure CommitPlan where
  strategy : String
  batching : String
  rollback_method : String
  rollback_timeout_seconds : ℕ
  maintenance_window : Option String
  deriving DecidableEq, Repr

/-- `IntentProcessor._create_commit_plan` (`intent_processor.py` lines
255-274).  `payloadCount` stands for `len(payloads)`. -/
def createCommitPlan (payloadCount : ℕ) (risk : RiskAssessment)
    (policy : Option OrchPolicy) : CommitPlan :=
  let strategy :=
    if risk.level = .high then "dry-run+manual-review+staged-commit"
    else "candidate+validate+confirmed-commit"
  { strategy := strategy
    batching := if payloadCount > 5 then "per-vendor" else "all-at-once"
    rollback_method := "confirmed-commit-timeout"
    rollback_timeout_seconds := if risk.level = .high then 120 else 300
    maintenance_window :=
      match policy with
      | none => none
      | some p => p.maintenance_window }

/-- Whether the character list starts with the given pattern. -/
def charsStartWith : List Char → List Char → Bool
  | _, [] => true
  | [], _ :: _ => false
  | c :: cs, p :: ps => c = p && charsStartWith cs ps

/-- Substring occurrence on character lists (leftmost scan). -/
def charsContain : List Char → List Char → Bool
  | [], pat => pat.isEmpty
  | c :: cs, pat => charsStartWith (c :: cs) pat || charsContain cs pat

/-- Python substring containment `pat in s`. -/
def strContains (s pat : String) : Bool :=
  charsContain s.data pat.data

/-- Python `str.lower()` on the ASCII strings the core handles. -/
def strLower (s : String) : String :=
  String.mk (s.data.map Char.toLower)

/-- Python `str.split(sep)` for a non-empty separator, as fuel-bounded
structural recursion on character lists (the fuel is an upper bound on the
scan length, so it never runs out). -/
def charsSplitOn (sep : List Char) : ℕ → List Char → List Char → List (List Char)
  | 0, rest, acc => [acc.reverse ++ rest]
  | _ + 1, [], acc => [acc.reverse]
  | fuel + 1, c :: cs, acc =>
    if sep ≠ [] ∧ charsStartWith (c :: cs) sep then
      acc.reverse :: charsSplitOn sep fuel (List.drop (sep.length - 1) cs) []
    else charsSplitOn sep fuel cs (c :: acc)

/-- Python `s.split(sep)` (non-empty `sep`). -/
def strSplitOn (s sep : String) : List String :=
  (charsSplitOn sep.data (s.data.length + 1) s.data []).map String.mk

/-- The parsed-entity lists consumed by `_extract_endpoints`
(`parsed.get("devices", [])` and `parsed.get("interfaces", [])`). -/
structure ParsedEntities where
  devices : List String
  interfaces : List String
  deriving DecidableEq, Repr

/-- `IntentProcessor._extract_endpoints` (`intent_processor.py` lines
138-165): zips devices with interfaces positionally (missing interfaces
become `"auto"`), tags devices whose lowercased name contains `pe`/`ce`,
and falls back to the `auto/auto` placeholder when no device was
extracted. -/
def extractEndpoints (parsed : ParsedEntities) : List Endpoint :=
  let endpoints :=
    (List.range parsed.devices.length).map (fun i =>
      let device := parsed.devices.getD i ""
      let interface := parsed.interfaces.getD i "auto"
      let tags : List String :=
        (if strContains (strLower device) "pe" then ["pe"] else []) ++
        (if strContains (strLower device) "ce" then ["ce"] else [])
      Endpoint.mk device interface tags)
  if endpoints.isEmpty then
    [Endpoint.mk "auto" "auto" ["auto-discovered"]]
  else endpoints

/-- The audit-log record assembled by `_create_audit_log`: `hashes` is the
Python dict built by inserting the key `payload_{i}` for `i = 0, 1, ...` in
order, modelled as the association list in insertion order. -/
structure AuditLog where
  sources : List String
  hashes : List (String × String)
  deriving DecidableEq, Repr

/-- `IntentProcessor._create_audit_log` (`intent_processor.py` lines
276-298), parameterised by the digest function `hashHex` standing for
`hashlib.sha256(payload.encode()).hexdigest()` (an external library call).
Every `CandidatePayload` has a `payload` attribute, so the `hasattr` guard
always passes; payload bodies are the strings of `payloadBodies`. -/
def createAuditLog (hashHex : String → String) (sources : List String)
    (payloadBodies : List String) : AuditLog :=
  { sources := sources.dedup
    hashes := payloadBodies.enum.map
      (fun p => ("payload_" ++ toString p.1, hashHex p.2)) }

/-- `MappingEntry` of `models.base` as populated by
`YANGMapper.create_mappings`. -/
structure MappingEntry where
  vendor : Vendor
  os_version : String
  yang_paths : List String
  notes : Option String
  deriving DecidableEq, Repr

/-- `YANGMapper._get_l3vpn_paths` (`yang_mapper.py` lines 100-131). -/
def getL3vpnPaths (vendor : Vendor) : List String :=
  match vendor with
  | .cisco =>
    ["Cisco-IOS-XR-infra-rsi-cfg:vrfs/vrf/vrf-name",
     "Cisco-IOS-XR-infra-rsi-cfg:vrfs/vrf/description",
     "Cisco-IOS-XR-infra-rsi-cfg:vrfs/vrf/vpn-id",
     "Cisco-IOS-XR-mpls-vpn-cfg:l3vpn/vrfs/vrf",
     "Cisco-IOS-XR-bgp-cfg:bgp/instance/instance-as/four-byte-as/default-vrf/global/route-distinguisher"]
  | .nokia =>
    ["nokia-conf:configure/service/vprn/service-id",
     "nokia-conf:configure/service/vprn/customer",
     "nokia-conf:configure/service/vprn/description",
     "nokia-conf:configure/service/vprn/route-distinguisher",
     "nokia-conf:configure/service/vprn/vrf-target"]
  | .juniper =>
    ["junos-conf-routing-instances:configuration/routing-instances/instance/name",
     "junos-conf-routing-instances:configuration/routing-instances/instance/instance-type",
     "junos-conf-routing-instances:configuration/routing-instances/instance/route-distinguisher",
     "junos-conf-routing-instances:configuration/routing-instances/instance/vrf-target"]

/-- `YANGMapper._get_evpn_paths` (`yang_mapper.py` lines 133-160). -/
def getEvpnPaths (vendor : Vendor) : List String :=
  match vendor with
  | .cisco =>
    ["Cisco-IOS-XR-l2vpn-cfg:l2vpn/database/bridge-domain-groups/bridge-domain-group",
     "Cisco-IOS-XR-l2vpn-cfg:l2vpn/database/xconnect-groups/xconnect-group",
     "Cisco-IOS-XR-evpn-cfg:evpn/enable",
     "Cisco-IOS-XR-evpn-cfg:evpn/interfaces/interface"]
  | .nokia =>
    ["nokia-conf:configure/service/epipe/service-id",
     "nokia-conf:configure/service/vpls/service-id",
     "nokia-conf:configure/service/epipe/bgp-evpn/evi",
     "nokia-conf:configure/service/vpls/bgp-evpn/evi"]
  | .juniper =>
    ["junos-conf-protocols:configuration/protocols/evpn/encapsulation",
     "junos-conf-protocols:configuration/protocols/evpn/extended-vni-list",
     "junos-conf-routing-instances:configuration/routing-instances/instance/protocols/evpn"]

/-- `YANGMapper._get_bgp_paths` (`yang_mapper.py` lines 162-189). -/
def getBgpPaths (vendor : Vendor) : List String :=
  match vendor with
  | .cisco =>
    ["Cisco-IOS-XR-bgp-cfg:bgp/instance/instance-as/four-byte-as",
     "Cisco-IOS-XR-bgp-cfg:bgp/instance/instance-as/four-byte-as/default-vrf/global/router-id",
     "Cisco-IOS-XR-bgp-cfg:bgp/instance/instance-as/four-byte-as/default-vrf/bgp-entity/neighbors/neighbor"]
  | .nokia =>
    ["nokia-conf:configure/router/bgp/autonomous-system",
     "nokia-conf:configure/router/bgp/router-id",
     "nokia-conf:configure/router/bgp/group",
     "nokia-conf:configure/router/bgp/neighbor"]
  | .juniper =>
    ["junos-conf-protocols:configuration/protocols/bgp/group/name",
     "junos-conf-protocols:configuration/protocols/bgp/group/neighbor",
     "junos-conf-routing-options:configuration/routing-options/autonomous-system"]

/-- `YANGMapper._get_igp_paths` (`yang_mapper.py` lines 191-234): the
Juniper branch is absent in the source, so Juniper takes the
OpenConfig-flavoured `else` sets. -/
def getIgpPaths (vendor : Vendor) (protocol : String) : List String :=
  if protocol = "isis" then
    match vendor with
    | .cisco =>
      ["Cisco-IOS-XR-clns-isis-cfg:isis/instances/instance/instance-name",
       "Cisco-IOS-XR-clns-isis-cfg:isis/instances/instance/running/addresses/address",
       "Cisco-IOS-XR-clns-isis-cfg:isis/instances/instance/running/interfaces/interface"]
    | .nokia =>
      ["nokia-conf:configure/router/isis/instance",
       "nokia-conf:configure/router/isis/area-address",
       "nokia-conf:configure/router/isis/interface"]
    | .juniper =>
      ["openconfig-isis:isis/global/config/instance",
       "openconfig-isis:isis/global/afi-safi",
       "openconfig-isis:isis/interfaces/interface"]
  else if protocol = "ospf" then
    match vendor with
    | .cisco =>
      ["Cisco-IOS-XR-ipv4-ospf-cfg:ospf/processes/process/process-name",
       "Cisco-IOS-XR-ipv4-ospf-cfg:ospf/processes/process/default-vrf/router-id",
       "Cisco-IOS-XR-ipv4-ospf-cfg:ospf/processes/process/default-vrf/area-addresses/area-area-id"]
    | .nokia =>
      ["nokia-conf:configure/router/ospf/instance",
       "nokia-conf:configure/router/ospf/router-id",
       "nokia-conf:configure/router/ospf/area"]
    | .juniper =>
      ["openconfig-ospfv2:ospfv2/global/config/router-id",
       "openconfig-ospfv2:ospfv2/areas/area",
       "openconfig-ospfv2:ospfv2/areas/area/interfaces/interface"]
  else []

/-- `YANGMapper._get_bfd_paths` (`yang_mapper.py` lines 236-259). -/
def getBfdPaths (vendor : Vendor) : List String :=
  match vendor with
  | .cisco =>
    ["Cisco-IOS-XR-ip-bfd-cfg:bfd/ipv4bf-table/ipv4bf-mhop-table/ipv4bf-mhop/destination-address",
     "Cisco-IOS-XR-ip-bfd-cfg:bfd/ipv4bf-table/ipv4bf-shfrom-table/ipv4bf-sh/source-address"]
  | .nokia =>
    ["nokia-conf:configure/router/bfd/session-type",
     "nokia-conf:configure/router/bfd/transmit-interval",
     "nokia-conf:configure/router/bfd/receive-interval"]
  | .juniper =>
    ["junos-conf-protocols:configuration/protocols/bfd/session",
     "junos-conf-protocols:configuration/protocols/bfd/traceoptions"]

/-- Truthiness of `intent.policy and intent.policy.bfd`. -/
def policyBfd (intent : NormalizedIntent) : Bool :=
  match intent.policy with
  | none => false
  | some p => p.bfd

/-- `YANGMapper._get_yang_paths_for_intent` (`yang_mapper.py` lines 74-98):
dispatch on `intent.service_type.value`; service types with no branch
contribute no paths; BFD paths are appended whenever `intent.policy.bfd`
is set. -/
def getYangPathsForIntent (intent : NormalizedIntent) (vendor : Vendor) :
    List String :=
  let serviceType := intent.service_type.value
  let paths : List String :=
    if serviceType = "l3vpn" then getL3vpnPaths vendor
    else if serviceType = "evpn" then getEvpnPaths vendor
    else if serviceType = "bgp" then getBgpPaths vendor
    else if serviceType = "isis" ∨ serviceType = "ospf" then
      getIgpPaths vendor serviceType
    else []
  if policyBfd intent then paths ++ getBfdPaths vendor else paths

/-- `YANGMapper._get_mapping_notes` (`yang_mapper.py` lines 261-282). -/
def getMappingNotes (vendor : Vendor) (intent : NormalizedIntent) :
    Option String :=
  let bfd := policyBfd intent
  let notes : List String :=
    match vendor with
    | .cisco =>
      (if intent.service_type = .l3vpn then
        ["IOS-XR uses separate VRF and BGP VPNv4 configuration"] else []) ++
      (if bfd then ["BFD requires explicit interface configuration"] else [])
    | .nokia =>
      (if intent.service_type = .l3vpn then
        ["SR OS uses service-based VPN configuration"] else []) ++
      ["Nokia requires explicit service activation"]
    | .juniper =>
      (if intent.service_type = .evpn then
        ["Junos requires EVPN protocol configuration under routing-instances"] else []) ++
      ["Juniper uses commit-confirmed for safe configuration"]
  if notes.isEmpty then none else some (String.intercalate "; " notes)

/-- The inventory fields read by `create_mappings`: `vendor` (lowercased
before the `Vendor` constructor) and `os_version` (default `"unknown"`). -/
structure MapperDevice where
  vendor : String
  os_version : String
  deriving DecidableEq, Repr

/-- `YANGMapper.create_mappings` (`yang_mapper.py` lines 37-72): devices
whose lowercased vendor string is not a `Vendor` member are skipped with a
warning (no mapping entry). -/
def createMappings (intent : NormalizedIntent)
    (inventory : List MapperDevice) : List MappingEntry :=
  inventory.filterMap (fun device =>
    match Vendor.ofString (strLower device.vendor) with
    | none => none
    | some vendor =>
      some { vendor := vendor
             os_version := device.os_version
             yang_paths := getYangPathsForIntent intent vendor
             notes := getMappingNotes vendor intent })

/-- `ModelDiscoveryResult` of `models.base` as populated by
`ModelDiscovery._discover_device_models`. -/
structure ModelDiscoveryResult where
  target : String
  transport : Transport
  models_found : List String
  source : String
  gaps : List String
  deriving DecidableEq, Repr

/-- `ModelDiscovery._get_required_models` (`model_discovery.py` lines
347-397): the vendor argument is the raw `device.get("vendor")` string for
live discovery and the lowercased one for the repository path. -/
def getRequiredModels (intent : NormalizedIntent) (vendor : Option String) :
    List String :=
  let serviceName := intent.service_type.value
  if serviceName = "l3vpn" then
    ["ietf-l3vpn-svc@2018-01-19",
     "ietf-network-instance@2019-01-21",
     "openconfig-network-instance@2021-08-24"] ++
    (if vendor = some "cisco" then
      ["Cisco-IOS-XR-mpls-vpn-cfg@2019-04-05",
       "cisco-xr-openconfig-network-instance-deviations@2019-04-05"]
     else if vendor = some "nokia" then
      ["nokia-conf-service@2021-09-30",
       "nokia-state-service@2021-09-30"]
     else if vendor = some "juniper" then
      ["junos-conf-routing-instances@2021-01-01"]
     else [])
  else if serviceName = "evpn" ∨ serviceName = "l2vpn-epipe" then
    ["ietf-l2vpn-svc@2020-08-24",
     "openconfig-evpn@2021-06-16",
     "ietf-evpn@2021-07-13"]
  else if serviceName = "bgp" then
    ["ietf-bgp@2019-03-21",
     "openconfig-bgp@2021-08-06"]
  else if serviceName = "isis" ∨ serviceName = "ospf" then
    ["ietf-" ++ serviceName ++ "@2020-02-24",
     "openconfig-" ++ serviceName ++ "@2021-07-28"]
  else []

/-- The capability-URI parse of `_discover_via_netconf` (lines 197-201):
`cap.split("module=")[1].split("&")[0]` and likewise for `revision=`;
guarded by both markers occurring in the URI. -/
def parseCapModels (caps : List String) : List String :=
  caps.foldl (fun acc cap =>
    if strContains cap "module=" && strContains cap "revision=" then
      let moduleMatch := (strSplitOn ((strSplitOn cap "module=").getD 1 "") "&").headD ""
      let revisionMatch := (strSplitOn ((strSplitOn cap "revision=").getD 1 "") "&").headD ""
      acc ++ [moduleMatch ++ "@" ++ revisionMatch]
    else acc) []

/-- Behaviour of one NETCONF client session during discovery: the connect
plus hello exchange, the capability list, and the per-identifier
`get-schema` RPC (`.error` models a raised exception, `.ok none` an absent
schema). -/
structure NetconfDiscoveryBeh where
  session : Except String (List String)
  get_schema : String → Except String (Option String)

/-- Behaviour of one gNMI client during discovery: `Capabilities()` yields
`(name, version)` pairs of `supported_models`, or raises. -/
structure GnmiDiscoveryBeh where
  capabilities : Except String (List (String × String))

/-- Behaviour of one RESTCONF client during discovery: the YANG-library
module list as `(name, revision)` pairs, or a raised exception. -/
structure RestconfDiscoveryBeh where
  modules : Except String (List (String × String))

/-- The full external environment of a per-device discovery.  `repoFirst`
models `_get_from_cache_or_repo` (cache plus HTTP fetch) for the initial
repository resolution and `repoRetry` the same call as re-issued from the
`except` branch of `_discover_device_models` (the outside world may have
changed between the two attempts). -/
structure DiscoveryEnv where
  netconf : NetconfDiscoveryBeh
  gnmi : GnmiDiscoveryBeh
  restconf : RestconfDiscoveryBeh
  repoFirst : String → Except String (Option String)
  repoRetry : String → Except String (Option String)

/-- The `get-schema` loop of `_discover_via_netconf` (lines 203-214): for
each required model not substring-matched by an already-found model, try
`get_schema`; a raised exception or an empty reply is recorded as a gap,
a schema adds the model (the cache write is a side effect on the external
cache and has no bearing on the returned lists). -/
def netconfSchemaLoop (getSchema : String → Except String (Option String))
    (required : List String) (models gaps : List String) :
    List String × List String :=
  required.foldl (fun acc reqModel =>
    let (ms, gs) := acc
    let reqName := (strSplitOn reqModel "@").headD ""
    if ms.any (fun m => strContains m reqName) then (ms, gs)
    else
      match getSchema reqName with
      | .error e => (ms, gs ++ ["Failed to get schema " ++ reqModel ++ ": " ++ e])
      | .ok none => (ms, gs ++ ["Schema not available: " ++ reqModel])
      | .ok (some _) => (ms ++ [reqModel], gs)) (models, gaps)

/-- `ModelDiscovery._discover_via_netconf` (`model_discovery.py` lines
178-219).  The whole body sits in a `try` whose handler records the gap
`NETCONF connection failed: ...`, so this helper never raises; it always
returns source tag `on-device-netconf`. -/
def discoverViaNetconf (beh : NetconfDiscoveryBeh)
    (intent : NormalizedIntent) (vendorRaw : String) :
    List String × List String × String :=
  match beh.session with
  | .error e => ([], ["NETCONF connection failed: " ++ e], "on-device-netconf")
  | .ok capabilities =>
    let models := parseCapModels capabilities
    let required := getRequiredModels intent (some vendorRaw)
    let (models, gaps) := netconfSchemaLoop beh.get_schema required models []
    (models, gaps, "on-device-netconf")

/-- `ModelDiscovery._discover_via_gnmi` (`model_discovery.py` lines
221-252): like the NETCONF helper it catches its own exceptions
(`gNMI connection failed: ...`) and always returns tag `on-device-gnmi`;
required models missing from the capability report become gaps (no
remote-schema fetch). -/
def discoverViaGnmi (beh : GnmiDiscoveryBeh) (intent : NormalizedIntent)
    (vendorRaw : String) : List String × List String × String :=
  match beh.capabilities with
  | .error e => ([], ["gNMI connection failed: " ++ e], "on-device-gnmi")
  | .ok supportedModels =>
    let models := supportedModels.map (fun m => m.1 ++ "@" ++ m.2)
    let required := getRequiredModels intent (some vendorRaw)
    let gaps := required.filterMap (fun reqModel =>
      let reqName := (strSplitOn reqModel "@").headD ""
      if models.any (fun m => strContains m reqName) then none
      else some ("Required model not supported: " ++ reqModel))
    (models, gaps, "on-device-gnmi")

/-- `ModelDiscovery._discover_via_restconf` (`model_discovery.py` lines
254-280): records every reported module as found, checks nothing against
the requirements, catches its own exceptions. -/
def discoverViaRestconf (beh : RestconfDiscoveryBeh) :
    List String × List String × String :=
  match beh.modules with
  | .error e => ([], ["RESTCONF connection failed: " ++ e], "on-device-restconf")
  | .ok modules =>
    (modules.map (fun m => m.1 ++ "@" ++ m.2), [], "on-device-restconf")

/-- `ModelDiscovery._discover_from_repos` (`model_discovery.py` lines
282-299): resolve each required model through the cache-or-repository
oracle; an unresolved model becomes a gap; a raised exception (cache I/O)
propagates to the caller. -/
def discoverFromRepos (resolve : String → Except String (Option String))
    (vendorLower : String) (intent : NormalizedIntent) :
    Except String (List String × List String) :=
  (getRequiredModels intent (some vendorLower)).foldlM (fun acc model => do
    let (ms, gs) := acc
    match (← resolve model) with
    | some _ => pure (ms ++ [model], gs)
    | none => pure (ms, gs ++ ["Model not found in repositories: " ++ model]))
    ([], [])

/-- `ModelDiscovery._discover_device_models` (`model_discovery.py` lines
122-176).  The per-transport helpers catch their own exceptions, so the
outer `except` (which appends `Discovery failed: ...` and degrades to the
repository with tag `repository-fallback`) can only be reached from the
no-live-transport repository branch; an exception raised inside that
handler propagates (`discover_models` then drops the device's result).
The `transport` variable keeps its initial NETCONF value on both
repository paths. -/
def discoverDeviceModels (env : DiscoveryEnv) (device : Device)
    (intent : NormalizedIntent) : Except String ModelDiscoveryResult :=
  let deviceId := device.device_id
  let vendor := strLower device.vendor
  let tryBody : Except String (List String × List String × String × Transport) :=
    if device.netconf_enabled then
      let (m, g, src) := discoverViaNetconf env.netconf intent device.vendor
      .ok (m, g, src, Transport.netconf)
    else if device.gnmi_enabled then
      let (m, g, src) := discoverViaGnmi env.gnmi intent device.vendor
      .ok (m, g, src, Transport.gnmi)
    else if device.restconf_enabled then
      let (m, g, src) := discoverViaRestconf env.restconf
      .ok (m, g, src, Transport.restconf)
    else do
      let (m, g) ← discoverFromRepos env.repoFirst vendor intent
      pure (m, g, "repository", Transport.netconf)
  match tryBody with
  | .ok (modelsFound, gaps, source, transport) =>
    .ok { target := deviceId
          transport := transport
          models_found := modelsFound.dedup
          source := source
          gaps := gaps.dedup }
  | .error e => do
    let (m, g) ← discoverFromRepos env.repoRetry vendor intent
    pure { target := deviceId
           transport := Transport.netconf
           models_found := m.dedup
           source := "repository-fallback"
           gaps := (["Discovery failed: " ++ e] ++ g).dedup }

/-- `CandidatePayload` of `models.base`, restricted to the fields the
commit engine reads (`target`, `transport`, `payload`). -/
structure CandidatePayload where
  target : String
  transport : Transport
  payload : String
  deriving DecidableEq, Repr

/-- `CommitResult` of `validation_engine.py` (lines 26-34), without the
wall-clock timestamp. -/
structure CommitResult where
  success : Bool
  device : String
  commit_id : Option String
  error_message : Option String
  deriving DecidableEq, Repr

/-- Outcome of one NETCONF RPC as seen by the engine: the boolean the
client returned, or a raised exception. -/
inductive RpcOutcome where
  | ok (b : Bool)
  | exn (msg : String)
  deriving DecidableEq, Repr

/-- Behaviour of one device's NETCONF session during a commit or rollback:
`connect` is the `async with client` entry (`some msg` raises), the other
fields are the four candidate-datastore RPCs. -/
structure CommitDeviceBeh where
  connect : Option String
  edit_config : RpcOutcome
  validate : RpcOutcome
  commit : RpcOutcome
  discard_changes : RpcOutcome
  deriving DecidableEq, Repr

/-- One NETCONF operation issued inside a device session, for tracing the
order of RPCs. -/
inductive NcOp where
  | editConfig
  | validateCandidate
  | commitRpc (confirmed : Bool) (timeoutSeconds : ℕ)
  | discardChanges
  deriving DecidableEq, Repr

/-- `ValidationEngine._commit_netconf_config` (`validation_engine.py` lines
406-470), with the sequence of issued RPCs made explicit.  `now` stands for
the `datetime.now()` reading used to mint the commit id.  Any exception
raised by a client call lands in the single outer handler, which returns
the `NETCONF commit error: ...` result. -/
def commitNetconfConfig (beh : CommitDeviceBeh) (target : String)
    (confirmed : Bool) (timeoutMinutes : ℕ) (now : ℕ) :
    CommitResult × List NcOp :=
  match beh.connect with
  | some e =>
    ({ success := false, device := target, commit_id := none,
       error_message := some ("NETCONF commit error: " ++ e) }, [])
  | none =>
    match beh.edit_config with
    | .exn e =>
      ({ success := false, device := target, commit_id := none,
         error_message := some ("NETCONF commit error: " ++ e) },
       [NcOp.editConfig])
    | .ok false =>
      ({ success := false, device := target, commit_id := none,
         error_message := some "Failed to edit candidate configuration" },
       [NcOp.editConfig])
    | .ok true =>
      match beh.validate with
      | .exn e =>
        ({ success := false, device := target, commit_id := none,
           error_message := some ("NETCONF commit error: " ++ e) },
         [NcOp.editConfig, NcOp.validateCandidate])
      | .ok false =>
        match beh.discard_changes with
        | .exn e =>
          ({ success := false, device := target, commit_id := none,
             error_message := some ("NETCONF commit error: " ++ e) },
           [NcOp.editConfig, NcOp.validateCandidate, NcOp.discardChanges])
        | .ok _ =>
          ({ success := false, device := target, commit_id := none,
             error_message := some "Configuration validation failed" },
           [NcOp.editConfig, NcOp.validateCandidate, NcOp.discardChanges])
      | .ok true =>
        match beh.commit with
        | .exn e =>
          ({ success := false, device := target, commit_id := none,
             error_message := some ("NETCONF commit error: " ++ e) },
           [NcOp.editConfig, NcOp.validateCandidate,
            NcOp.commitRpc confirmed (timeoutMinutes * 60)])
        | .ok false =>
          ({ success := false, device := target, commit_id := none,
             error_message := some "Commit operation failed" },
           [NcOp.editConfig, NcOp.validateCandidate,
            NcOp.commitRpc confirmed (timeoutMinutes * 60)])
        | .ok true =>
          ({ success := true, device := target,
             commit_id := some ("commit_" ++ toString now),
             error_message := none },
           [NcOp.editConfig, NcOp.validateCandidate,
            NcOp.commitRpc confirmed (timeoutMinutes * 60)])

/-- `ValidationEngine._commit_device_config` (`validation_engine.py` lines
386-404): NETCONF runs the candidate protocol, gNMI returns an immediate
success with commit id `gnmi_immediate` and issues no device operation,
any other transport is rejected. -/
def commitDeviceConfig (beh : CommitDeviceBeh) (payload : CandidatePayload)
    (confirmed : Bool) (timeoutMinutes : ℕ) (now : ℕ) :
    CommitResult × List NcOp :=
  match payload.transport with
  | .netconf => commitNetconfConfig beh payload.target confirmed timeoutMinutes now
  | .gnmi =>
    ({ success := true, device := payload.target,
       commit_id := some "gnmi_immediate", error_message := none }, [])
  | .restconf =>
    ({ success := false, device := payload.target, commit_id := none,
       error_message := some "Unsupported transport for commit: Transport.RESTCONF" },
     [])

/-- One entry of the Active Commit Registry
(`self.active_commits[payload.target]`, lines 370-374): commit id, expiry
instant (`now + timeout_minutes`, in minutes on the model clock) and the
originating payload. -/
structure CommitEntry where
  commit_id : Option String
  timeout : ℕ
  payload : CandidatePayload
  deriving DecidableEq, Repr

/-- The Active Commit Registry: the engine's `active_commits` dict,
target-keyed. -/
abbrev Registry := List (String × CommitEntry)

/-- Python `dict` lookup on the registry model. -/
def Registry.find (reg : Registry) (target : String) : Option CommitEntry :=
  match reg with
  | [] => none
  | (k, v) :: rest => if k = target then some v else Registry.find rest target

/-- Python `dict.__setitem__`: replace the entry if the key is present,
else append. -/
def Registry.insert (reg : Registry) (target : String) (entry : CommitEntry) :
    Registry :=
  match reg with
  | [] => [(target, entry)]
  | (k, v) :: rest =>
    if k = target then (k, entry) :: rest
    else (k, v) :: Registry.insert rest target entry

/-- Python `del dict[key]` (keys are unique, so removing every match is the
same as removing the one binding). -/
def Registry.erase (reg : Registry) (target : String) : Registry :=
  match reg with
  | [] => []
  | (k, v) :: rest =>
    if k = target then Registry.erase rest target
    else (k, v) :: Registry.erase rest target

/-- `ValidationEngine.get_active_commits` (lines 649-651): a copy of the
registry. -/
def getActiveCommits (reg : Registry) : Registry := reg

/-- One iteration of the loop of `ValidationEngine.commit_configurations`
(lines 362-382): run the device commit, append the result, and on a
successful confirmed commit register `{commit_id, now + timeout_minutes,
payload}` for the target.  The traces accumulate the per-target RPC
sequences. -/
def commitStep (behOf : String → CommitDeviceBeh) (confirmed : Bool)
    (timeoutMinutes : ℕ) (now : ℕ)
    (acc : List CommitResult × List (String × List NcOp) × Registry)
    (payload : CandidatePayload) :
    List CommitResult × List (String × List NcOp) × Registry :=
  let rt := commitDeviceConfig (behOf payload.target) payload confirmed timeoutMinutes now
  (acc.1 ++ [rt.1],
   acc.2.1 ++ [(payload.target, rt.2)],
   if confirmed && rt.1.success then
     Registry.insert acc.2.2 payload.target
       { commit_id := rt.1.commit_id
         timeout := now + timeoutMinutes
         payload := payload }
   else acc.2.2)

/-- `ValidationEngine.commit_configurations` (`validation_engine.py` lines
352-384): sequential per-payload processing threading the registry.  The
loop's own `except` is unreachable because `_commit_device_config` catches
every client exception itself. -/
def commitConfigurations (behOf : String → CommitDeviceBeh)
    (payloads : List CandidatePayload) (confirmed : Bool)
    (timeoutMinutes : ℕ) (now : ℕ) (reg : Registry) :
    List CommitResult × List (String × List NcOp) × Registry :=
  payloads.foldl (commitStep behOf confirmed timeoutMinutes now) ([], [], reg)

/-- One iteration of the loop of `ValidationEngine.rollback_configurations`
(lines 534-564): connect, issue `discard-changes`, and delete the registry
entry — the deletion happens only when the RPC *returns*; a raised
exception jumps to the handler, which records the error result and leaves
the registry untouched. -/
def rollbackTarget (beh : CommitDeviceBeh) (target : String)
    (reg : Registry) : CommitResult × Registry :=
  match beh.connect with
  | some e =>
    ({ success := false, device := target, commit_id := none,
       error_message := some ("Rollback error: " ++ e) }, reg)
  | none =>
    match beh.discard_changes with
    | .exn e =>
      ({ success := false, device := target, commit_id := none,
         error_message := some ("Rollback error: " ++ e) }, reg)
    | .ok b =>
      ({ success := b, device := target, commit_id := some "rollback",
         error_message := if b then none else some "Rollback failed" },
       Registry.erase reg target)

/-- One iteration of the rollback loop as a fold step: append the result
of `rollbackTarget` and carry its registry forward. -/
def rollbackStep (behOf : String → CommitDeviceBeh)
    (acc : List CommitResult × Registry) (target : String) :
    List CommitResult × Registry :=
  (acc.1 ++ [(rollbackTarget (behOf target) target acc.2).1],
   (rollbackTarget (behOf target) target acc.2).2)

/-- `ValidationEngine.rollback_configurations` (`validation_engine.py`
lines 528-566): when no explicit target list is given (or the given list
is empty, which is falsy in `device_targets or
list(self.active_commits.keys())`), the current registry keys are used. -/
def rollbackConfigurations (behOf : String → CommitDeviceBeh)
    (deviceTargets : Option (List String)) (reg : Registry) :
    List CommitResult × Registry :=
  let targets :=
    match deviceTargets with
    | some ts => if ts.isEmpty then reg.map Prod.fst else ts
    | none => reg.map Prod.fst
  targets.foldl (rollbackStep behOf) ([], reg)

/-- An L3VPN intent with no SLO and no policy, used to instantiate
theorems at a concrete input. -/
def intentL3W : NormalizedIntent :=
  NormalizedIntent.mk .l3vpn [Endpoint.mk "PE1" "auto" ["pe"]] none none none

/-- A NETCONF-enabled nokia device, used to instantiate the discovery
theorems at a concrete input. -/
def deviceW : Device := Device.mk "PE1" "nokia" true false false

/-- A discovery environment whose NETCONF session raises a connection
error while the repository oracle would resolve every model. -/
def envNetconfDown : DiscoveryEnv :=
  { netconf := NetconfDiscoveryBeh.mk (.error "Connection refused")
      (fun _ => .ok none)
    gnmi := GnmiDiscoveryBeh.mk (.ok [])
    restconf := RestconfDiscoveryBeh.mk (.ok [])
    repoFirst := fun _ => .ok (some "module m ...")
    repoRetry := fun _ => .ok (some "module m ...") }

/-- A gNMI-only device, used to instantiate the discovery theorems. -/
def deviceGnmiW : Device := Device.mk "PE3" "cisco" false true false

/-- A discovery environment whose gNMI capability query raises. -/
def envGnmiDown : DiscoveryEnv :=
  { netconf := NetconfDiscoveryBeh.mk (.ok []) (fun _ => .ok none)
    gnmi := GnmiDiscoveryBeh.mk (.error "gRPC unavailable")
    restconf := RestconfDiscoveryBeh.mk (.ok [])
    repoFirst := fun _ => .ok (some "module m ...")
    repoRetry := fun _ => .ok (some "module m ...") }

/-! ## Theorems -/

/-- C8: the commit plan built by the orchestrator has strategy
`dry-run+manual-review+staged-commit` exactly when the risk level is HIGH
and `candidate+validate+confirmed-commit` otherwise; batching is
`per-vendor` exactly when the candidate-payload count exceeds 5 and
`all-at-once` otherwise; and the rollback timeout is 120 seconds for HIGH
risk and 300 seconds otherwise. -/
theorem createCommitPlan_characterization (payloadCount : ℕ)
    (risk : RiskAssessment) (policy : Option OrchPolicy) :
    ((createCommitPlan payloadCount risk policy).strategy =
        "dry-run+manual-review+staged-commit" ↔ risk.level = .high)
  ∧ ((createCommitPlan payloadCount risk policy).strategy =
        "candidate+validate+confirmed-commit" ↔ risk.level ≠ .high)
  ∧ ((createCommitPlan payloadCount risk policy).batching = "per-vendor"
        ↔ payloadCount > 5)
  ∧ ((createCommitPlan payloadCount risk policy).batching = "all-at-once"
        ↔ payloadCount ≤ 5)
  ∧ ((createCommitPlan payloadCount risk policy).rollback_timeout_seconds =
        if risk.level = .high then 120 else 300) := by
  obtain ⟨lvl, f, m⟩ := risk
  by_cases h5 : payloadCount > 5 <;> cases lvl <;>
    simp [createCommitPlan, h5] <;> omega

/-- C9: endpoint normalization always yields a non-empty endpoint list;
with no extracted devices it is exactly the `auto/auto` placeholder tagged
`auto-discovered`; and positions with no positional interface get
interface `"auto"`. -/
theorem extractEndpoints_spec (parsed : ParsedEntities) :
    extractEndpoints parsed ≠ []
  ∧ (parsed.devices = [] →
      extractEndpoints parsed = [Endpoint.mk "auto" "auto" ["auto-discovered"]])
  ∧ (∀ i, i < parsed.devices.length → parsed.interfaces.length ≤ i →
      ((extractEndpoints parsed)[i]?).map Endpoint.interface = some "auto") := by
  refine ⟨?_, ?_, ?_⟩
  · unfold extractEndpoints
    cases hd : parsed.devices with
    | nil => simp
    | cons d rest => simp [hd]
  · intro h
    unfold extractEndpoints
    simp [h]
  · intro i hi hlen
    unfold extractEndpoints
    dsimp only
    split
    next hemp =>
      rw [List.isEmpty_iff] at hemp
      have hlen0 : parsed.devices.length = 0 := by
        simpa using congrArg List.length hemp
      omega
    next hemp =>
      rw [List.getElem?_map, List.getElem?_range hi]
      simp [List.getD]
      rw [List.getElem?_eq_none hlen]
      rfl

/-- Closed instance of `extractEndpoints_spec`, discharging its
hypotheses at a concrete extraction result (two devices, one interface). -/
theorem extractEndpoints_spec_witness :
    ((extractEndpoints (ParsedEntities.mk ["PE1", "PE2"] ["ge-0/0/1"]))[1]?).map
        Endpoint.interface = some "auto"
  ∧ extractEndpoints (ParsedEntities.mk [] []) =
      [Endpoint.mk "auto" "auto" ["auto-discovered"]] :=
  ⟨(extractEndpoints_spec (ParsedEntities.mk ["PE1", "PE2"] ["ge-0/0/1"])).2.2 1
      (by decide) (by decide),
   (extractEndpoints_spec (ParsedEntities.mk [] [])).2.1 rfl⟩

/-- C4, counterexample: a core-routing (L3VPN) intent against a
multi-vendor (cisco + nokia) inventory, with a maintenance window and no
SLO, yields level MEDIUM — not HIGH as the claim states, because the
multi-vendor branch of `_assess_risks` assigns MEDIUM unconditionally. -/
theorem assessRisks_multiVendor_counterexample :
    (assessRisks
      (NormalizedIntent.mk .l3vpn [Endpoint.mk "PE1" "auto" ["pe"]] none none none)
      [Device.mk "PE1" "cisco" true false false,
       Device.mk "PE2" "nokia" true false false]
      (some (OrchPolicy.mk (some "02:00-04:00")))).level ≠ RiskLevel.high
  ∧ (assessRisks
      (NormalizedIntent.mk .l3vpn [Endpoint.mk "PE1" "auto" ["pe"]] none none none)
      [Device.mk "PE1" "cisco" true false false,
       Device.mk "PE2" "nokia" true false false]
      (some (OrchPolicy.mk (some "02:00-04:00")))).level = RiskLevel.medium := by
  constructor <;> decide

/-- C4, amended: an inventory with more than one distinct vendor always
adds the multi-vendor factor and mitigation, and sets the level to MEDIUM
unconditionally (not "MEDIUM if LOW else HIGH"); the final level is HIGH
only when the aggressive-SLO rule fires afterwards. -/
theorem assessRisks_multiVendor (intent : NormalizedIntent)
    (inventory : List Device) (policy : Option OrchPolicy)
    (h : (inventory.map Device.vendor).dedup.length > 1) :
    "Multi-vendor environment detected" ∈ (assessRisks intent inventory policy).factors
  ∧ "Validate vendor-specific YANG models" ∈
      (assessRisks intent inventory policy).mitigations
  ∧ (assessRisks intent inventory policy).level =
      (if aggressiveSlo intent.slo then RiskLevel.high else RiskLevel.medium) := by
  unfold assessRisks
  dsimp only
  by_cases hcore : intent.service_type = .l3vpn ∨ intent.service_type = .evpn <;>
  by_cases hwin : hasMaintWindow policy <;>
  by_cases hslo : aggressiveSlo intent.slo <;>
    simp [hcore, hwin, hslo, h]

/-- Closed instance of `assessRisks_multiVendor` at a concrete two-vendor
inventory, discharging the multi-vendor hypothesis. -/
theorem assessRisks_multiVendor_witness :
    "Multi-vendor environment detected" ∈
      (assessRisks
        (NormalizedIntent.mk .bgp [Endpoint.mk "PE1" "auto" ["pe"]] none none none)
        [Device.mk "PE1" "cisco" true false false,
         Device.mk "PE2" "juniper" true false false] none).factors :=
  (assessRisks_multiVendor
    (NormalizedIntent.mk .bgp [Endpoint.mk "PE1" "auto" ["pe"]] none none none)
    [Device.mk "PE1" "cisco" true false false,
     Device.mk "PE2" "juniper" true false false] none (by decide)).1

/-- C6, counterexample: an SLO with `latency_ms = 0` (present and `< 10`)
does not trigger the aggressive-SLO rule, because `0` is falsy in the
Python conjunction `intent.slo.latency_ms and intent.slo.latency_ms < 10`;
with no other factor the level stays LOW, not HIGH as the claim states. -/
theorem assessRisks_latencyZero_counterexample :
    (assessRisks
      (NormalizedIntent.mk .bgp [Endpoint.mk "PE1" "auto" ["pe"]] none
        (some (SLO.mk (some 0) none none)) none)
      [Device.mk "PE1" "cisco" true false false]
      (some (OrchPolicy.mk (some "02:00-04:00")))).level ≠ RiskLevel.high
  ∧ (assessRisks
      (NormalizedIntent.mk .bgp [Endpoint.mk "PE1" "auto" ["pe"]] none
        (some (SLO.mk (some 0) none none)) none)
      [Device.mk "PE1" "cisco" true false false]
      (some (OrchPolicy.mk (some "02:00-04:00")))).level = RiskLevel.low := by
  constructor <;> decide

/-- C6, amended: when `slo.latency_ms` is present, nonzero and strictly
below 10, risk assessment adds the aggressive-SLO factor and mitigation
and forces the level to HIGH, overriding every other level computation. -/
theorem assessRisks_aggressiveSlo (intent : NormalizedIntent)
    (inventory : List Device) (policy : Option OrchPolicy) (s : SLO) (x : ℚ)
    (hs : intent.slo = some s) (hx : s.latency_ms = some x)
    (h0 : x ≠ 0) (h10 : x < 10) :
    "Aggressive SLO requirements" ∈ (assessRisks intent inventory policy).factors
  ∧ "Enable performance monitoring pre/post change" ∈
      (assessRisks intent inventory policy).mitigations
  ∧ (assessRisks intent inventory policy).level = RiskLevel.high := by
  have hagg : aggressiveSlo intent.slo = true := by
    simp only [aggressiveSlo, hs, hx]
    simp [h0, h10]
  unfold assessRisks
  dsimp only
  by_cases hcore : intent.service_type = .l3vpn ∨ intent.service_type = .evpn <;>
  by_cases hmv : (inventory.map Device.vendor).dedup.length > 1 <;>
  by_cases hwin : hasMaintWindow policy <;>
    simp [hcore, hmv, hwin, hagg]

/-- Closed instance of `assessRisks_aggressiveSlo` at `latency_ms = 5`. -/
theorem assessRisks_aggressiveSlo_witness :
    (assessRisks
      (NormalizedIntent.mk .bgp [Endpoint.mk "PE1" "auto" ["pe"]] none
        (some (SLO.mk (some 5) none none)) none)
      [Device.mk "PE1" "cisco" true false false]
      (some (OrchPolicy.mk (some "02:00-04:00")))).level = RiskLevel.high :=
  (assessRisks_aggressiveSlo
    (NormalizedIntent.mk .bgp [Endpoint.mk "PE1" "auto" ["pe"]] none
      (some (SLO.mk (some 5) none none)) none)
    [Device.mk "PE1" "cisco" true false false]
    (some (OrchPolicy.mk (some "02:00-04:00")))
    (SLO.mk (some 5) none none) 5 rfl rfl (by norm_num) (by norm_num)).2.2

/-- C7: in the audit log assembled for a successful `process_intent`
response, the entry at index `i` of `hashes` is keyed `payload_i` and holds
the digest of the `i`-th candidate payload's body: every payload string
round-trips to its recorded hash.  Stated for every digest function, hence
in particular for SHA-256. -/
theorem createAuditLog_hash_roundtrip (hashHex : String → String)
    (sources : List String) (bodies : List String) (i : ℕ)
    (h : i < bodies.length) :
    (createAuditLog hashHex sources bodies).hashes[i]? =
      some ("payload_" ++ toString i, hashHex bodies[i])
  ∧ (createAuditLog hashHex sources bodies).hashes.length = bodies.length := by
  constructor
  · simp [createAuditLog, List.getElem?_map, List.getElem?_enum,
      List.getElem?_eq_getElem h]
  · simp [createAuditLog]

/-- Closed instance of `createAuditLog_hash_roundtrip` with the identity
digest at index 1 of a two-payload batch. -/
theorem createAuditLog_hash_roundtrip_witness :
    (createAuditLog (fun s => s) ["on-device-netconf"]
        ["<config-a/>", "<config-b/>"]).hashes[1]? =
      some ("payload_1", "<config-b/>") :=
  (createAuditLog_hash_roundtrip (fun s => s) ["on-device-netconf"]
    ["<config-a/>", "<config-b/>"] 1 (by decide)).1

/-- C5, counterexample: the (cisco, QOS) pair is not tabulated, and the
mapping created for a cisco device from a QOS intent has an *empty*
`yang_paths` list — not the non-empty OpenConfig fallback the claim
states, because `_get_yang_paths_for_intent` has no branch (and no
fallback) for service types outside l3vpn/evpn/bgp/isis/ospf. -/
theorem createMappings_qos_counterexample :
    (createMappings
      (NormalizedIntent.mk .qos [Endpoint.mk "auto" "auto" ["auto-discovered"]]
        none none (some (Policy.mk 1500 false none)))
      [MapperDevice.mk "cisco" "IOS-XR 7.3"]).map MappingEntry.yang_paths
      = [[]] := by
  decide

/-- C5, amended: every mapping entry created for a device carries a
non-empty `yang_paths` list when the intent's service type is one of the
tabulated ones (l3vpn, evpn, bgp, isis, ospf) — for vendors without a
dedicated table the OpenConfig-flavoured fallback arm applies — while for
every other service type (qos, acl, srv6, segment-routing, telemetry,
l2vpn-epipe) the list is empty unless BFD is requested, in which case it
is exactly the vendor's BFD path set. -/
theorem createMappings_yangPaths (intent : NormalizedIntent)
    (inventory : List MapperDevice) (m : MappingEntry)
    (hm : m ∈ createMappings intent inventory) :
    (intent.service_type = .l3vpn ∨ intent.service_type = .evpn ∨
     intent.service_type = .bgp ∨ intent.service_type = .isis ∨
     intent.service_type = .ospf → m.yang_paths ≠ [])
  ∧ (intent.service_type = .qos ∨ intent.service_type = .acl ∨
     intent.service_type = .srv6 ∨ intent.service_type = .segmentRouting ∨
     intent.service_type = .telemetry ∨ intent.service_type = .l2vpnEpipe →
     m.yang_paths = if policyBfd intent then getBfdPaths m.vendor else []) := by
  obtain ⟨d, hd, hsome⟩ := List.mem_filterMap.mp hm
  rcases hv : Vendor.ofString (strLower d.vendor) with _ | v
  · rw [hv] at hsome
    simp at hsome
  · rw [hv] at hsome
    simp only [Option.some.injEq] at hsome
    have hy : m.yang_paths = getYangPathsForIntent intent v := by
      rw [← hsome]
    have hvv : m.vendor = v := by
      rw [← hsome]
    rw [hy, hvv]
    constructor
    · intro hcov
      rcases hcov with hst | hst | hst | hst | hst <;>
        cases v <;> cases hbfd : policyBfd intent <;>
          simp +decide [getYangPathsForIntent, ServiceType.value, hst, hbfd,
            getL3vpnPaths, getEvpnPaths, getBgpPaths, getIgpPaths, getBfdPaths]
    · intro hunc
      rcases hunc with hst | hst | hst | hst | hst | hst <;>
        cases v <;> cases hbfd : policyBfd intent <;>
          simp +decide [getYangPathsForIntent, ServiceType.value, hst, hbfd,
            getBfdPaths]

/-- Closed instance of `createMappings_yangPaths`: the nokia mapping for a
plain L3VPN intent has a non-empty path list. -/
theorem createMappings_yangPaths_witness :
    getYangPathsForIntent intentL3W Vendor.nokia ≠ [] :=
  (createMappings_yangPaths intentL3W [MapperDevice.mk "nokia" "SR OS 21.7"]
    (MappingEntry.mk Vendor.nokia "SR OS 21.7"
      (getYangPathsForIntent intentL3W Vendor.nokia)
      (getMappingNotes Vendor.nokia intentL3W))
    (by decide)).1 (Or.inl rfl)

/-- Looking up the erased key fails. -/
theorem Registry.find_erase_self (reg : Registry) (t : String) :
    Registry.find (Registry.erase reg t) t = none := by
  induction reg with
  | nil => rfl
  | cons kv rest ih =>
    obtain ⟨k, v⟩ := kv
    by_cases h : k = t <;> simp [Registry.erase, Registry.find, h, ih]

/-- Erasing one key leaves every other key's binding unchanged. -/
theorem Registry.find_erase_ne (reg : Registry) (t' t : String) (h : t' ≠ t) :
    Registry.find (Registry.erase reg t') t = Registry.find reg t := by
  induction reg with
  | nil => rfl
  | cons kv rest ih =>
    obtain ⟨k, v⟩ := kv
    by_cases hk : k = t'
    · subst hk
      simp [Registry.erase, Registry.find, h, Ne.symm h, ih]
    · by_cases hkt : k = t <;>
        simp [Registry.erase, Registry.find, hk, hkt, Ne.symm h, ih]

/-- Looking up a freshly inserted key returns the inserted entry. -/
theorem Registry.find_insert_self (reg : Registry) (t : String)
    (e : CommitEntry) :
    Registry.find (Registry.insert reg t e) t = some e := by
  induction reg with
  | nil => simp [Registry.insert, Registry.find]
  | cons kv rest ih =>
    obtain ⟨k, v⟩ := kv
    by_cases h : k = t <;> simp [Registry.insert, Registry.find, h, ih]

/-- A rollback step on a target whose discard-changes RPC returns erases
that target's registry entry. -/
theorem rollbackTarget_snd_of_returned (beh : CommitDeviceBeh) (t : String)
    (reg : Registry) (b : Bool) (hc : beh.connect = none)
    (hd : beh.discard_changes = .ok b) :
    (rollbackTarget beh t reg).2 = Registry.erase reg t := by
  simp [rollbackTarget, hc, hd]

/-- A rollback step whose connect or discard-changes raises leaves the
registry untouched. -/
theorem rollbackTarget_snd_of_raised (beh : CommitDeviceBeh) (t : String)
    (reg : Registry)
    (h : (∃ e, beh.connect = some e) ∨
         (beh.connect = none ∧ ∃ e, beh.discard_changes = .exn e)) :
    (rollbackTarget beh t reg).2 = reg := by
  rcases h with ⟨e, hc⟩ | ⟨hc, e, hd⟩
  · simp [rollbackTarget, hc]
  · simp [rollbackTarget, hc, hd]

/-- A rollback step never creates a binding: an absent key stays absent. -/
theorem find_rollbackTarget_snd_of_none (beh : CommitDeviceBeh) (t' t : String)
    (reg : Registry) (h : Registry.find reg t = none) :
    Registry.find (rollbackTarget beh t' reg).2 t = none := by
  obtain ⟨c, ed, va, cm, dc⟩ := beh
  rcases c with _ | e0
  · rcases dc with b | m
    · by_cases ht : t' = t
      · subst ht
        simp [rollbackTarget, Registry.find_erase_self]
      · simp [rollbackTarget, Registry.find_erase_ne _ _ _ ht, h]
    · simpa [rollbackTarget] using h
  · simpa [rollbackTarget] using h

/-- A rollback step on a different target preserves this target's
binding. -/
theorem find_rollbackTarget_snd_of_ne (beh : CommitDeviceBeh) (t' t : String)
    (reg : Registry) (h : t' ≠ t) :
    Registry.find (rollbackTarget beh t' reg).2 t = Registry.find reg t := by
  obtain ⟨c, ed, va, cm, dc⟩ := beh
  rcases c with _ | e0
  · rcases dc with b | m
    · simp [rollbackTarget, Registry.find_erase_ne _ _ _ h]
    · simp [rollbackTarget]
  · simp [rollbackTarget]

/-- Through the whole rollback loop, an absent key stays absent. -/
theorem rollback_foldl_find_none (behOf : String → CommitDeviceBeh)
    (ts : List String) (rs : List CommitResult) (reg : Registry) (t : String)
    (h : Registry.find reg t = none) :
    Registry.find ((ts.foldl (rollbackStep behOf) (rs, reg)).2) t = none := by
  induction ts generalizing rs reg with
  | nil => simpa using h
  | cons t' ts ih =>
    simp only [List.foldl_cons, rollbackStep]
    exact ih _ _ (find_rollbackTarget_snd_of_none _ _ _ _ h)

/-- Through the whole rollback loop, a target whose own rollback raises
keeps its binding (other targets' steps only erase their own keys). -/
theorem rollback_foldl_find_raised (behOf : String → CommitDeviceBeh)
    (ts : List String) (rs : List CommitResult) (reg : Registry) (t : String)
    (h : (∃ e, (behOf t).connect = some e) ∨
         ((behOf t).connect = none ∧ ∃ e, (behOf t).discard_changes = .exn e)) :
    Registry.find ((ts.foldl (rollbackStep behOf) (rs, reg)).2) t =
      Registry.find reg t := by
  induction ts generalizing rs reg with
  | nil => rfl
  | cons t' ts ih =>
    simp only [List.foldl_cons, rollbackStep]
    rw [ih]
    by_cases ht : t' = t
    · subst ht
      rw [rollbackTarget_snd_of_raised _ _ _ h]
    · exact find_rollbackTarget_snd_of_ne _ _ _ _ ht

/-- Once some occurrence of a target whose rollback returns is processed,
its registry entry is gone for good. -/
theorem rollback_foldl_find_returned (behOf : String → CommitDeviceBeh)
    (ts : List String) (rs : List CommitResult) (reg : Registry) (t : String)
    (b : Bool) (hmem : t ∈ ts) (hc : (behOf t).connect = none)
    (hd : (behOf t).discard_changes = .ok b) :
    Registry.find ((ts.foldl (rollbackStep behOf) (rs, reg)).2) t = none := by
  induction ts generalizing rs reg with
  | nil => cases hmem
  | cons t' ts ih =>
    simp only [List.foldl_cons, rollbackStep]
    by_cases ht : t' = t
    · subst ht
      rw [rollbackTarget_snd_of_returned _ _ _ b hc hd]
      exact rollback_foldl_find_none _ _ _ _ _ (Registry.find_erase_self reg t')
    · rcases List.mem_cons.mp hmem with hEq | hmem'
      · exact absurd hEq.symm ht
      · exact ih _ _ hmem'

/-- C2, counterexample: with one active commit for `PE1` and a device
whose `discard-changes` raises an exception, `rollback_configurations`
leaves the `PE1` registry entry in place (the `del` is skipped by the
exception handler), so the claim's "no entry regardless of ... raised an
exception" is false. -/
theorem rollbackConfigurations_exception_counterexample :
    Registry.find
      (getActiveCommits
        (rollbackConfigurations
          (fun _ => CommitDeviceBeh.mk none (.ok true) (.ok true) (.ok true)
            (.exn "RPC timeout"))
          (some ["PE1"])
          [("PE1", CommitEntry.mk (some "commit_7") 17
              (CandidatePayload.mk "PE1" .netconf "<config/>"))]).2) "PE1" ≠ none := by
  decide

/-- C2, amended: after `rollback_configurations` targeting a device, that
device has no Active Commit Registry entry whenever its `discard-changes`
RPC *returned* (successfully or not); but when connecting or the RPC
raises an exception, the entry is left exactly as it was — registry
removal is unconditional only with respect to the RPC's boolean result,
not with respect to exceptions. -/
theorem rollbackConfigurations_registry (behOf : String → CommitDeviceBeh)
    (targets : List String) (reg : Registry) (target : String)
    (hmem : target ∈ targets) :
    (∀ b, (behOf target).connect = none →
      (behOf target).discard_changes = .ok b →
      Registry.find
        (getActiveCommits (rollbackConfigurations behOf (some targets) reg).2)
        target = none)
  ∧ (∀ e, (behOf target).connect = none →
      (behOf target).discard_changes = .exn e →
      Registry.find
        (getActiveCommits (rollbackConfigurations behOf (some targets) reg).2)
        target = Registry.find reg target)
  ∧ (∀ e, (behOf target).connect = some e →
      Registry.find
        (getActiveCommits (rollbackConfigurations behOf (some targets) reg).2)
        target = Registry.find reg target) := by
  have hne : targets.isEmpty = false := by
    cases targets with
    | nil => cases hmem
    | cons a ts => rfl
  refine ⟨?_, ?_, ?_⟩
  · intro b hc hd
    unfold rollbackConfigurations
    simp only [hne, Bool.false_eq_true, if_false]
    exact rollback_foldl_find_returned behOf targets [] reg target b hmem hc hd
  · intro e hc hd
    unfold rollbackConfigurations
    simp only [hne, Bool.false_eq_true, if_false]
    exact rollback_foldl_find_raised behOf targets [] reg target
      (Or.inr ⟨hc, e, hd⟩)
  · intro e hc
    unfold rollbackConfigurations
    simp only [hne, Bool.false_eq_true, if_false]
    exact rollback_foldl_find_raised behOf targets [] reg target (Or.inl ⟨e, hc⟩)

/-- Closed instance of `rollbackConfigurations_registry`: a failed (but
returning) discard-changes still clears the entry. -/
theorem rollbackConfigurations_registry_witness :
    Registry.find
      (getActiveCommits
        (rollbackConfigurations
          (fun _ => CommitDeviceBeh.mk none (.ok true) (.ok true) (.ok true)
            (.ok false))
          (some ["PE1"])
          [("PE1", CommitEntry.mk (some "commit_7") 17
              (CandidatePayload.mk "PE1" .netconf "<config/>"))]).2) "PE1" = none :=
  (rollbackConfigurations_registry
    (fun _ => CommitDeviceBeh.mk none (.ok true) (.ok true) (.ok true)
      (.ok false))
    ["PE1"]
    [("PE1", CommitEntry.mk (some "commit_7") 17
        (CandidatePayload.mk "PE1" .netconf "<config/>"))]
    "PE1" (List.mem_singleton.mpr rfl)).1 false rfl rfl

/-- C1: within one device's NETCONF session in `commit_configurations`,
the RPCs are strictly sequential.  A commit RPC appears in the session
trace only when edit-config and validate both returned success, and then
the trace is exactly edit → validate → commit(confirmed, 60·timeout); an
edit-config failure aborts with an error and without any discard-changes;
a validate failure issues discard-changes, aborts with an error, and no
commit is ever issued.  The last conjunct ties the per-device function to
the dispatch `commit_configurations` performs for NETCONF payloads. -/
theorem commitNetconfConfig_protocol (beh : CommitDeviceBeh) (target : String)
    (confirmed : Bool) (tm now : ℕ) :
    (∀ c t, NcOp.commitRpc c t ∈ (commitNetconfConfig beh target confirmed tm now).2 →
      beh.connect = none ∧ beh.edit_config = .ok true ∧ beh.validate = .ok true ∧
      (commitNetconfConfig beh target confirmed tm now).2 =
        [NcOp.editConfig, NcOp.validateCandidate,
         NcOp.commitRpc confirmed (tm * 60)])
  ∧ (beh.connect = none → beh.edit_config = .ok false →
      (commitNetconfConfig beh target confirmed tm now).1.success = false ∧
      (commitNetconfConfig beh target confirmed tm now).1.error_message ≠ none ∧
      (commitNetconfConfig beh target confirmed tm now).2 = [NcOp.editConfig])
  ∧ (beh.connect = none → beh.edit_config = .ok true → beh.validate = .ok false →
      (commitNetconfConfig beh target confirmed tm now).1.success = false ∧
      NcOp.discardChanges ∈ (commitNetconfConfig beh target confirmed tm now).2 ∧
      (∀ c t, NcOp.commitRpc c t ∉ (commitNetconfConfig beh target confirmed tm now).2))
  ∧ (∀ p : CandidatePayload, p.transport = .netconf →
      commitDeviceConfig beh p confirmed tm now =
        commitNetconfConfig beh p.target confirmed tm now) := by
  obtain ⟨c, ed, va, cm, dc⟩ := beh
  refine ⟨?_, ?_, ?_, ?_⟩
  · intro c' t' hmem
    rcases c with _ | e0 <;>
    rcases ed with ⟨_ | _⟩ | em <;>
    rcases va with ⟨_ | _⟩ | vm <;>
    rcases cm with ⟨_ | _⟩ | cmm <;>
    rcases dc with ⟨_ | _⟩ | dmm <;>
      simp_all [commitNetconfConfig]
  · intro hc hed
    subst hc
    subst hed
    simp [commitNetconfConfig]
  · intro hc hed hva
    subst hc
    subst hed
    subst hva
    rcases dc with ⟨_ | _⟩ | dmm <;> simp [commitNetconfConfig]
  · intro p hp
    simp [commitDeviceConfig, hp]

/-- Closed instance of `commitNetconfConfig_protocol`, discharging its
hypotheses: a failing validate issues discard-changes and aborts, while a
failing edit-config aborts with only the edit in the trace. -/
theorem commitNetconfConfig_protocol_witness :
    (commitNetconfConfig
      (CommitDeviceBeh.mk none (.ok true) (.ok false) (.ok true) (.ok true))
      "PE1" true 10 7).1.success = false
  ∧ NcOp.discardChanges ∈ (commitNetconfConfig
      (CommitDeviceBeh.mk none (.ok true) (.ok false) (.ok true) (.ok true))
      "PE1" true 10 7).2
  ∧ (commitNetconfConfig
      (CommitDeviceBeh.mk none (.ok false) (.ok true) (.ok true) (.ok true))
      "PE2" true 10 7).2 = [NcOp.editConfig] :=
  ⟨((commitNetconfConfig_protocol
      (CommitDeviceBeh.mk none (.ok true) (.ok false) (.ok true) (.ok true))
      "PE1" true 10 7).2.2.1 rfl rfl rfl).1,
   ((commitNetconfConfig_protocol
      (CommitDeviceBeh.mk none (.ok true) (.ok false) (.ok true) (.ok true))
      "PE1" true 10 7).2.2.1 rfl rfl rfl).2.1,
   ((commitNetconfConfig_protocol
      (CommitDeviceBeh.mk none (.ok false) (.ok true) (.ok true) (.ok true))
      "PE2" true 10 7).2.1 rfl rfl).2.2⟩

/-- C10: a gNMI payload is committed "successfully" with commit id
`gnmi_immediate` without a single device operation being issued, and with
`confirmed=true` the commit step nevertheless registers an Active Commit
Registry entry for the target expiring `timeout_minutes` later — the
device holds no auto-reverting confirmed commit backing that entry. -/
theorem commitStep_gnmi_immediate (behOf : String → CommitDeviceBeh)
    (p : CandidatePayload) (tm now : ℕ) (results : List CommitResult)
    (traces : List (String × List NcOp)) (reg : Registry)
    (h : p.transport = .gnmi) :
    commitDeviceConfig (behOf p.target) p true tm now =
      (CommitResult.mk true p.target (some "gnmi_immediate") none, [])
  ∧ Registry.find
      (commitStep behOf true tm now (results, traces, reg) p).2.2 p.target =
      some (CommitEntry.mk (some "gnmi_immediate") (now + tm) p)
  ∧ (commitStep behOf true tm now (results, traces, reg) p).2.1 =
      traces ++ [(p.target, [])] := by
  have h1 : commitDeviceConfig (behOf p.target) p true tm now =
      (CommitResult.mk true p.target (some "gnmi_immediate") none, []) := by
    simp [commitDeviceConfig, h]
  refine ⟨h1, ?_, ?_⟩ <;>
    simp [commitStep, h1, Registry.find_insert_self]

/-- Closed instance of `commitStep_gnmi_immediate` at a concrete gNMI
payload. -/
theorem commitStep_gnmi_immediate_witness :
    Registry.find
      (commitStep (fun _ => CommitDeviceBeh.mk none (.ok true) (.ok true)
          (.ok true) (.ok true)) true 10 5 ([], [], [])
        (CandidatePayload.mk "PE9" .gnmi "set-request")).2.2 "PE9" =
      some (CommitEntry.mk (some "gnmi_immediate") 15
        (CandidatePayload.mk "PE9" .gnmi "set-request")) :=
  (commitStep_gnmi_immediate
    (fun _ => CommitDeviceBeh.mk none (.ok true) (.ok true) (.ok true) (.ok true))
    (CandidatePayload.mk "PE9" .gnmi "set-request") 10 5 [] [] [] rfl).2.1

/-- Deduplicating a one-element list is the identity. -/
theorem dedup_singleton {α : Type} [DecidableEq α] (a : α) :
    [a].dedup = [a] := by
  rw [List.dedup_cons_of_not_mem (List.not_mem_nil a), List.dedup_nil]

/-- C3, counterexample: a NETCONF-enabled device whose connection raises
is *not* degraded to the repository path — even though the repository
oracle of this environment would resolve every model, the result keeps
source `on-device-netconf` (not `repository-fallback`) and records a
connection-failure gap, because `_discover_via_netconf` swallows its own
exceptions before the fallback handler of `_discover_device_models` can
see them. -/
theorem discoverDeviceModels_conn_failure_counterexample :
    discoverDeviceModels envNetconfDown deviceW intentL3W =
      .ok (ModelDiscoveryResult.mk "PE1" .netconf [] "on-device-netconf"
        ["NETCONF connection failed: Connection refused"])
  ∧ "on-device-netconf" ≠ "repository-fallback" := by
  refine ⟨by rfl, by decide⟩

/-- C3, amended: an exception during live discovery is caught *inside*
the per-transport helper, so the per-device result keeps the on-device
source tag (`on-device-netconf` / `on-device-gnmi` / `on-device-restconf`),
records the connection failure as a gap, and consults no repository
fallback — the result is completely determined without the repository
oracle, and `repository-fallback` can only be produced when the
no-live-transport repository resolution itself raises. -/
theorem discoverDeviceModels_live_failure (env : DiscoveryEnv)
    (device : Device) (intent : NormalizedIntent) (e : String) :
    (device.netconf_enabled = true → env.netconf.session = .error e →
      discoverDeviceModels env device intent =
        .ok (ModelDiscoveryResult.mk device.device_id .netconf []
          "on-device-netconf" ["NETCONF connection failed: " ++ e]))
  ∧ (device.netconf_enabled = false → device.gnmi_enabled = true →
      env.gnmi.capabilities = .error e →
      discoverDeviceModels env device intent =
        .ok (ModelDiscoveryResult.mk device.device_id .gnmi []
          "on-device-gnmi" ["gNMI connection failed: " ++ e]))
  ∧ (device.netconf_enabled = false → device.gnmi_enabled = false →
      device.restconf_enabled = true → env.restconf.modules = .error e →
      discoverDeviceModels env device intent =
        .ok (ModelDiscoveryResult.mk device.device_id .restconf []
          "on-device-restconf" ["RESTCONF connection failed: " ++ e])) := by
  refine ⟨?_, ?_, ?_⟩
  · intro hn hs
    simp [discoverDeviceModels, discoverViaNetconf, hn, hs, dedup_singleton]
  · intro hn hg hs
    simp [discoverDeviceModels, discoverViaGnmi, hn, hg, hs, dedup_singleton]
  · intro hn hg hr hs
    simp [discoverDeviceModels, discoverViaRestconf, hn, hg, hr, hs,
      dedup_singleton]

/-- Closed instance of `discoverDeviceModels_live_failure` at a concrete
gNMI-only device whose capability query raises. -/
theorem discoverDeviceModels_live_failure_witness :
    discoverDeviceModels envGnmiDown deviceGnmiW intentL3W =
      .ok (ModelDiscoveryResult.mk "PE3" .gnmi [] "on-device-gnmi"
        ["gNMI connection failed: gRPC unavailable"]) :=
  (discoverDeviceModels_live_failure envGnmiDown deviceGnmiW intentL3W
    "gRPC unavailable").2.1 rfl rfl rfl

end Aurora
